import Mathlib

/-!
Formal model of the `th3james/clock` repository: three single-file variants of
an SDL analogue clock renderer.

Variant naming used throughout this development:
- `v1` is the basic 2D variant (`src/unnamed/part_000`): SDL renderer,
  line/point drawing, no millisecond sampling, 16 ms frame delay.
- `v2` is the 2D OpenGL variant (`src/clock.c`): triangulated geometry via a
  shader pipeline, millisecond sampling, 100 ms frame delay.
- `v3` is the 3D OpenGL variant (`src/unnamed/part_001`): lit 3D geometry,
  millisecond sampling, 100 ms frame delay.

Machine integers of the C source are modelled as `ℕ` (all values involved are
non-negative on the documented input ranges); `double`/`float` arithmetic on
time-derived angles is modelled exactly over `ℚ` (the decimal factors 0.5,
0.1 and 0.006 are taken as exact rationals), and the trigonometric geometry
is modelled over `ℝ`.
-/

namespace ClockSpec

/-! ## Angle calculators

Each variant computes the three hand angles inside `render_clock`, directly
from the sampled time fields. The formulas below are transcribed from the
source lines:
- v1 (`part_000` lines 111–113): `hours * 30.0 + minutes * 0.5`,
  `minutes * 6.0`, `seconds * 6.0`.
- v2 (`clock.c` lines 252–254): `hours * 30.0 + minutes * 0.5`,
  `minutes * 6.0 + seconds * 0.1`, `seconds * 6.0 + milliseconds * 0.006`.
- v3 (`part_001` lines 410–412): the same three smooth expressions as v2,
  each wrapped in a unary minus (`-(...)`).
-/

/-- v1 hour-hand angle: `(hours * 30.0) + (minutes * 0.5)` (part_000 line 111). -/
def hour_angle_v1 (hours minutes : ℕ) : ℚ := hours * 30 + minutes * (1 / 2)

/-- v1 minute-hand angle: `minutes * 6.0` (part_000 line 112). -/
def minute_angle_v1 (minutes : ℕ) : ℚ := minutes * 6

/-- v1 second-hand angle: `seconds * 6.0` (part_000 line 113). -/
def second_angle_v1 (seconds : ℕ) : ℚ := seconds * 6

/-- v2 hour-hand angle: `(hours * 30.0) + (minutes * 0.5)` (clock.c line 252). -/
def hour_angle_v2 (hours minutes : ℕ) : ℚ := hours * 30 + minutes * (1 / 2)

/-- v2 minute-hand angle: `(minutes * 6.0) + (seconds * 0.1)` (clock.c line 253). -/
def minute_angle_v2 (minutes seconds : ℕ) : ℚ := minutes * 6 + seconds * (1 / 10)

/-- v2 second-hand angle: `(seconds * 6.0) + (milliseconds * 0.006)` (clock.c line 254). -/
def second_angle_v2 (seconds milliseconds : ℕ) : ℚ :=
  seconds * 6 + milliseconds * (6 / 1000)

/-- v3 hour-hand angle: `-((hours * 30.0) + (minutes * 0.5))` (part_001 line 410). -/
def hour_angle_v3 (hours minutes : ℕ) : ℚ := -(hours * 30 + minutes * (1 / 2))

/-- v3 minute-hand angle: `-((minutes * 6.0) + (seconds * 0.1))` (part_001 line 411). -/
def minute_angle_v3 (minutes seconds : ℕ) : ℚ := -(minutes * 6 + seconds * (1 / 10))

/-- v3 second-hand angle: `-((seconds * 6.0) + (milliseconds * 0.006))` (part_001 line 412). -/
def second_angle_v3 (seconds milliseconds : ℕ) : ℚ :=
  -(seconds * 6 + milliseconds * (6 / 1000))

/-- Spec-side formula (§4.2): `hourDeg = (hour12 * 30) + (minute * 0.5)`. -/
def spec_hourDeg (hour12 minute : ℕ) : ℚ := hour12 * 30 + minute * (1 / 2)

/-- Spec-side formula (§4.2), smooth variants: `minuteDeg = minute*6 + second*0.1`. -/
def spec_minuteDeg_smooth (minute second : ℕ) : ℚ := minute * 6 + second * (1 / 10)

/-- Spec-side formula (§4.2), smooth variants: `secondDeg = second*6 + millisecond*0.006`. -/
def spec_secondDeg_smooth (second millisecond : ℕ) : ℚ :=
  second * 6 + millisecond * (6 / 1000)

/-- Spec-side formula (§4.2), basic variant: `minuteDeg = minute * 6`. -/
def spec_minuteDeg_basic (minute : ℕ) : ℚ := minute * 6

/-- Spec-side formula (§4.2), basic variant: `secondDeg = second * 6`. -/
def spec_secondDeg_basic (second : ℕ) : ℚ := second * 6

/-! ## Time sampler

`get_current_time` of v2/v3 (clock.c lines 191–211, part_001 lines 331–351)
derives the per-frame `TimeSample` from `localtime`'s `struct tm` fields and
the `timespec` nanosecond field:
`hours = tm_hour % 12`, `minutes = tm_min`, `seconds = tm_sec`,
`milliseconds = tv_nsec / 1000000` (C integer division).
The documented ranges of the inputs are `tm_hour ∈ [0,23]`,
`tm_min ∈ [0,59]`, `tm_sec ∈ [0,60]` (60 for a positive leap second) and
`tv_nsec ∈ [0, 999999999]`.
-/

/-- TimeSample record: the four fields produced once per frame. -/
structure TimeSample where
  hour12 : ℕ
  minute : ℕ
  second : ℕ
  millisecond : ℕ
deriving DecidableEq

/-- Embedding of `get_current_time` (clock.c lines 204–208): field-by-field
derivation of a `TimeSample` from the system clock values. -/
def get_current_time (tm_hour tm_min tm_sec tv_nsec : ℕ) : TimeSample :=
  { hour12 := tm_hour % 12
    minute := tm_min
    second := tm_sec
    millisecond := tv_nsec / 1000000 }

/-! ## Claims C1, C2, C5 -/

/-- C1 counterexample: at `hour12 = 3, minute = 0` the 3D variant's render step
computes an hour angle of `-90`, not the claimed `hour12*30 + minute*0.5 = 90`
(part_001 line 410 negates the formula). -/
theorem C1_counterexample :
    hour_angle_v3 3 0 = -90 ∧ spec_hourDeg 3 0 = 90 ∧
      hour_angle_v3 3 0 ≠ spec_hourDeg 3 0 := by
  refine ⟨by norm_num [hour_angle_v3], by norm_num [spec_hourDeg], ?_⟩
  norm_num [hour_angle_v3, spec_hourDeg]

/-- C1 (amended): the 2D variants compute exactly the spec formulas
(`hourDeg = hour12*30 + minute*0.5`, `minuteDeg = minute*6` plus `second*0.1`
in the smooth variant, `secondDeg = second*6` plus `millisecond*0.006` in the
smooth variant); the 3D variant computes the negation of each smooth formula. -/
theorem C1_theorem (h m s ms : ℕ) :
    hour_angle_v1 h m = spec_hourDeg h m ∧
    minute_angle_v1 m = spec_minuteDeg_basic m ∧
    second_angle_v1 s = spec_secondDeg_basic s ∧
    hour_angle_v2 h m = spec_hourDeg h m ∧
    minute_angle_v2 m s = spec_minuteDeg_smooth m s ∧
    second_angle_v2 s ms = spec_secondDeg_smooth s ms ∧
    hour_angle_v3 h m = -spec_hourDeg h m ∧
    minute_angle_v3 m s = -spec_minuteDeg_smooth m s ∧
    second_angle_v3 s ms = -spec_secondDeg_smooth s ms := by
  exact ⟨rfl, rfl, rfl, rfl, rfl, rfl, rfl, rfl, rfl⟩

/-- C2 counterexample: at `second = 1, millisecond = 0` the 3D variant's second
hand angle is `-6`, which is negative, refuting "in every variant ... all three
computed hand angles are non-negative and lie in [0, 360)". -/
theorem C2_counterexample :
    second_angle_v3 1 0 = -6 ∧ ¬ (0 ≤ second_angle_v3 1 0) := by
  constructor
  · norm_num [second_angle_v3]
  · norm_num [second_angle_v3]

/-- C2 (amended): for every in-range TimeSample the 2D variants' angles all lie
in `[0, 360)`; the 3D variant's angles are negated and lie in `(-360, 0]`. In
particular the smooth second angle is `0` at `second = 0, ms = 0` and stays
strictly below `360` (and strictly above `-360` when negated). -/
theorem C2_theorem (h m s ms : ℕ)
    (hh : h ≤ 11) (hm : m ≤ 59) (hs : s ≤ 59) (hms : ms ≤ 999) :
    (0 ≤ hour_angle_v1 h m ∧ hour_angle_v1 h m < 360) ∧
    (0 ≤ minute_angle_v1 m ∧ minute_angle_v1 m < 360) ∧
    (0 ≤ second_angle_v1 s ∧ second_angle_v1 s < 360) ∧
    (0 ≤ hour_angle_v2 h m ∧ hour_angle_v2 h m < 360) ∧
    (0 ≤ minute_angle_v2 m s ∧ minute_angle_v2 m s < 360) ∧
    (0 ≤ second_angle_v2 s ms ∧ second_angle_v2 s ms < 360) ∧
    (-360 < hour_angle_v3 h m ∧ hour_angle_v3 h m ≤ 0) ∧
    (-360 < minute_angle_v3 m s ∧ minute_angle_v3 m s ≤ 0) ∧
    (-360 < second_angle_v3 s ms ∧ second_angle_v3 s ms ≤ 0) ∧
    second_angle_v1 0 = 0 ∧ second_angle_v2 0 0 = 0 := by
  have hh' : (h : ℚ) ≤ 11 := by exact_mod_cast hh
  have hm' : (m : ℚ) ≤ 59 := by exact_mod_cast hm
  have hs' : (s : ℚ) ≤ 59 := by exact_mod_cast hs
  have hms' : (ms : ℚ) ≤ 999 := by exact_mod_cast hms
  have h0 : (0 : ℚ) ≤ (h : ℚ) := by positivity
  have m0 : (0 : ℚ) ≤ (m : ℚ) := by positivity
  have s0 : (0 : ℚ) ≤ (s : ℚ) := by positivity
  have ms0 : (0 : ℚ) ≤ (ms : ℚ) := by positivity
  refine ⟨⟨?_, ?_⟩, ⟨?_, ?_⟩, ⟨?_, ?_⟩, ⟨?_, ?_⟩, ⟨?_, ?_⟩, ⟨?_, ?_⟩,
    ⟨?_, ?_⟩, ⟨?_, ?_⟩, ⟨?_, ?_⟩, ?_, ?_⟩ <;>
    simp only [hour_angle_v1, minute_angle_v1, second_angle_v1, hour_angle_v2,
      minute_angle_v2, second_angle_v2, hour_angle_v3, minute_angle_v3,
      second_angle_v3] <;>
    first
      | linarith
      | norm_num

/-- C2 witness: the amended bounds instantiated at the extreme in-range sample
`hour12 = 11, minute = 59, second = 59, millisecond = 999`. -/
theorem C2_witness :
    (0 ≤ hour_angle_v1 11 59 ∧ hour_angle_v1 11 59 < 360) ∧
    (0 ≤ minute_angle_v1 59 ∧ minute_angle_v1 59 < 360) ∧
    (0 ≤ second_angle_v1 59 ∧ second_angle_v1 59 < 360) ∧
    (0 ≤ hour_angle_v2 11 59 ∧ hour_angle_v2 11 59 < 360) ∧
    (0 ≤ minute_angle_v2 59 59 ∧ minute_angle_v2 59 59 < 360) ∧
    (0 ≤ second_angle_v2 59 999 ∧ second_angle_v2 59 999 < 360) ∧
    (-360 < hour_angle_v3 11 59 ∧ hour_angle_v3 11 59 ≤ 0) ∧
    (-360 < minute_angle_v3 59 59 ∧ minute_angle_v3 59 59 ≤ 0) ∧
    (-360 < second_angle_v3 59 999 ∧ second_angle_v3 59 999 ≤ 0) ∧
    second_angle_v1 0 = 0 ∧ second_angle_v2 0 0 = 0 :=
  C2_theorem 11 59 59 999 (by norm_num) (by norm_num) (by norm_num) (by norm_num)

/-- C5 counterexample: the documented range of `tm_sec` is `[0, 60]` (a
positive leap second yields 60), and `get_current_time` passes `tm_sec`
through unchanged, so the sample at `tm_hour = 23, tm_min = 59, tm_sec = 60,
tv_nsec = 0` has `second = 60`, outside the claimed `[0, 59]`. -/
theorem C5_counterexample :
    (get_current_time 23 59 60 0).second = 60 ∧
      ¬ ((get_current_time 23 59 60 0).second ≤ 59) := by
  refine ⟨rfl, by decide⟩

/-- C5 (amended): for every system clock value with the fields in their
documented ranges (`tm_min ≤ 59`, `tm_sec ≤ 60` allowing a leap second,
`tv_nsec ≤ 999999999`), the produced sample satisfies `hour12 ≤ 11`
(for every `tm_hour` whatsoever, by the `% 12`), `minute ≤ 59`,
`second ≤ 60`, and `millisecond ≤ 999`. -/
theorem C5_theorem (tm_hour tm_min tm_sec tv_nsec : ℕ)
    (hmin : tm_min ≤ 59) (hsec : tm_sec ≤ 60) (hnsec : tv_nsec ≤ 999999999) :
    (get_current_time tm_hour tm_min tm_sec tv_nsec).hour12 ≤ 11 ∧
    (get_current_time tm_hour tm_min tm_sec tv_nsec).minute ≤ 59 ∧
    (get_current_time tm_hour tm_min tm_sec tv_nsec).second ≤ 60 ∧
    (get_current_time tm_hour tm_min tm_sec tv_nsec).millisecond ≤ 999 := by
  refine ⟨?_, hmin, hsec, ?_⟩
  · show tm_hour % 12 ≤ 11
    exact Nat.lt_succ_iff.mp (Nat.mod_lt _ (by norm_num))
  · show tv_nsec / 1000000 ≤ 999
    exact le_trans (Nat.div_le_div_right hnsec) (by norm_num)

/-- C5 witness: the amended ranges instantiated at the extreme documented
clock value `tm_hour = 23, tm_min = 59, tm_sec = 60, tv_nsec = 999999999`. -/
theorem C5_witness :
    (get_current_time 23 59 60 999999999).hour12 ≤ 11 ∧
    (get_current_time 23 59 60 999999999).minute ≤ 59 ∧
    (get_current_time 23 59 60 999999999).second ≤ 60 ∧
    (get_current_time 23 59 60 999999999).millisecond ≤ 999 :=
  C5_theorem 23 59 60 999999999 (by norm_num) (by norm_num) (by norm_num)

/-! ## Frame driver: events, ticks and the main loop

The observable actions of one `render_clock` call are modelled as an ordered
list of `Step`s. All three variants share the same in-tick order (transcribed
from part_000 lines 93–129, clock.c lines 213–287, part_001 lines 353–438):
clear, draw face outline, draw hour markers, sample time, compute angles,
draw hour hand, draw minute hand, draw second hand, draw center hub, present.

On a failed time read, v2 and v3 print `"Error: Unable to get current time"`
to stderr and call `exit(EXIT_FAILURE)` (= status 1) before any hand is drawn
and before the frame is presented. v1's `get_current_time` returns `void`,
checks nothing, and dereferences the `localtime` result unconditionally, so a
failed `localtime` is a crash (undefined behaviour), not a diagnostic exit;
this is modelled by the `crash` constructor.
-/

/-- One observable action inside a `render_clock` call. -/
inductive Step where
  | clearFrame
  | drawFace
  | drawMarkers
  | sampleTime
  | computeAngles
  | drawHourHand
  | drawMinuteHand
  | drawSecondHand
  | drawHub
  | presentFrame
deriving DecidableEq

/-- Result of one `render_clock` call: a presented frame with its ordered
steps, a fatal diagnostic exit (steps performed so far, the stderr message,
the exit status), or a crash (v1 dereferencing a NULL `localtime` result). -/
inductive TickResult where
  | presented (steps : List Step)
  | fatalExit (steps : List Step) (diag : String) (code : ℕ)
  | crash (steps : List Step)
deriving DecidableEq

/-- The tick order every variant actually performs on a successful frame. -/
def renderSteps : List Step :=
  [Step.clearFrame, Step.drawFace, Step.drawMarkers, Step.sampleTime,
   Step.computeAngles, Step.drawHourHand, Step.drawMinuteHand,
   Step.drawSecondHand, Step.drawHub, Step.presentFrame]

/-- Spec-side definition (§4.4, the order claimed by C3): sample time and
compute angles first, then clear and draw. Written from the spec's words to
compare against `renderSteps`. -/
def specTickOrder : List Step :=
  [Step.sampleTime, Step.computeAngles, Step.clearFrame, Step.drawFace,
   Step.drawMarkers, Step.drawHourHand, Step.drawMinuteHand,
   Step.drawSecondHand, Step.drawHub, Step.presentFrame]

/-- v1 `render_clock` (part_000 lines 93–129). `localtimeOk` is whether
`localtime` returned a non-NULL pointer; on NULL the unchecked dereference in
`get_current_time` crashes mid-sample, after the face and markers are drawn. -/
def render_clock_v1 (localtimeOk : Bool) : TickResult :=
  if localtimeOk then TickResult.presented renderSteps
  else TickResult.crash [Step.clearFrame, Step.drawFace, Step.drawMarkers]

/-- v2 `render_clock` (clock.c lines 213–287). On a failed `get_current_time`
it prints the diagnostic and exits with `EXIT_FAILURE` (clock.c lines 246–250)
without drawing any hand or presenting. -/
def render_clock_v2 (timeReadOk : Bool) : TickResult :=
  if timeReadOk then TickResult.presented renderSteps
  else TickResult.fatalExit
    [Step.clearFrame, Step.drawFace, Step.drawMarkers, Step.sampleTime]
    "Error: Unable to get current time" 1

/-- v3 `render_clock` (part_001 lines 353–438): same failure behaviour as v2
(part_001 lines 403–407). -/
def render_clock_v3 (timeReadOk : Bool) : TickResult :=
  if timeReadOk then TickResult.presented renderSteps
  else TickResult.fatalExit
    [Step.clearFrame, Step.drawFace, Step.drawMarkers, Step.sampleTime]
    "Error: Unable to get current time" 1

/-- Whether a tick result is a clean diagnostic exit with non-zero status. -/
def isDiagnosticExit : TickResult → Bool
  | TickResult.fatalExit _ _ code => code ≠ 0
  | _ => false

/-- SDL3 key code of the Escape key (`SDLK_ESCAPE = 0x1B`). -/
def SDLK_ESCAPE : ℕ := 27

/-- The SDL events the `handle_events` loop distinguishes. -/
inductive Event where
  | quit
  | keyDown (key : ℕ)
  | otherEvent
deriving DecidableEq

/-- One iteration of the `while (SDL_PollEvent(&event))` body, identical in
all three variants: `SDL_EVENT_QUIT` clears the running flag, and so does
`SDL_EVENT_KEY_DOWN` with `key == SDLK_ESCAPE`. -/
def handle_event (running : Bool) (e : Event) : Bool :=
  let r1 := if e = Event.quit then false else running
  match e with
  | Event.keyDown k => if k = SDLK_ESCAPE then false else r1
  | _ => r1

/-- `handle_events`: drain the polled event queue, folding the running flag
through `handle_event`. -/
def handle_events (running : Bool) (events : List Event) : Bool :=
  events.foldl handle_event running

/-- An event that makes `handle_events` clear the running flag. -/
def isStopEvent : Event → Bool
  | Event.quit => true
  | Event.keyDown k => k = SDLK_ESCAPE
  | Event.otherEvent => false

/-- A trace element of the main loop: one `render_clock` call or one
`SDL_Delay`. -/
inductive LoopStep where
  | renderTick (t : TickResult)
  | sleepDelay (ms : ℕ)
deriving DecidableEq

/-- How a run of the main loop ended. -/
inductive RunOutcome where
  | exited (code : ℕ)
  | crashed
  | outOfInput
deriving DecidableEq

/-- The `while (clock.running)` loop shared by all variants' `main`:
per iteration, check the running flag, drain the event queue, render one
frame, and sleep `delayMs`. Each input pair supplies one iteration's polled
events and whether the time read succeeds that frame. `outOfInput` means the
supplied input list was exhausted while the loop was still running. -/
def runLoop (renderTick : Bool → TickResult) (delayMs : ℕ) :
    Bool → List (List Event × Bool) → List LoopStep × RunOutcome
  | running, [] =>
      ([], if running then RunOutcome.outOfInput else RunOutcome.exited 0)
  | running, (events, timeOk) :: rest =>
      if running then
        let running' := handle_events running events
        match renderTick timeOk with
        | TickResult.fatalExit s d c =>
            ([LoopStep.renderTick (TickResult.fatalExit s d c)], RunOutcome.exited c)
        | TickResult.crash s =>
            ([LoopStep.renderTick (TickResult.crash s)], RunOutcome.crashed)
        | TickResult.presented s =>
            let next := runLoop renderTick delayMs running' rest
            (LoopStep.renderTick (TickResult.presented s) ::
              LoopStep.sleepDelay delayMs :: next.1, next.2)
      else ([], RunOutcome.exited 0)

/-- The initialization steps that can fail, in program order. For v2/v3 the
third step is GL context creation; for v1 it is renderer creation. -/
structure InitConds where
  sdlInitOk : Bool
  createWindowOk : Bool
  createDeviceOk : Bool
deriving DecidableEq

/-- v1 `init_clock` (part_000 lines 131–159): returns the diagnostic printed
on the first failing step, or `none` on success. -/
def init_clock_v1 (c : InitConds) : Option String :=
  if !c.sdlInitOk then some "SDL initialization failed"
  else if !c.createWindowOk then some "Window creation failed"
  else if !c.createDeviceOk then some "Renderer creation failed"
  else none

/-- v2 `init_clock` (clock.c lines 289–348). -/
def init_clock_v2 (c : InitConds) : Option String :=
  if !c.sdlInitOk then some "SDL initialization failed"
  else if !c.createWindowOk then some "Window creation failed"
  else if !c.createDeviceOk then some "OpenGL context creation failed"
  else none

/-- v3 `init_clock` (part_001 lines 440–510). -/
def init_clock_v3 (c : InitConds) : Option String :=
  if !c.sdlInitOk then some "SDL initialization failed"
  else if !c.createWindowOk then some "Window creation failed"
  else if !c.createDeviceOk then some "OpenGL context creation failed"
  else none

/-- v1 `main` (part_000 lines 179–194): failed init returns status 1 after the
init diagnostic; otherwise the loop runs with a 16 ms delay and `main`
returns 0 once the running flag is cleared. -/
def main_v1 (c : InitConds) (inputs : List (List Event × Bool)) :
    Option String × List LoopStep × RunOutcome :=
  match init_clock_v1 c with
  | some d => (some d, [], RunOutcome.exited 1)
  | none => (none, runLoop render_clock_v1 16 true inputs)

/-- v2 `main` (clock.c lines 378–393): 100 ms delay. -/
def main_v2 (c : InitConds) (inputs : List (List Event × Bool)) :
    Option String × List LoopStep × RunOutcome :=
  match init_clock_v2 c with
  | some d => (some d, [], RunOutcome.exited 1)
  | none => (none, runLoop render_clock_v2 100 true inputs)

/-- v3 `main` (part_001 lines 541–556): 100 ms delay. -/
def main_v3 (c : InitConds) (inputs : List (List Event × Bool)) :
    Option String × List LoopStep × RunOutcome :=
  match init_clock_v3 c with
  | some d => (some d, [], RunOutcome.exited 1)
  | none => (none, runLoop render_clock_v3 100 true inputs)

/-! Helper lemmas about the event fold and the loop. -/

/-- Once the running flag is false, `handle_event` never sets it again. -/
theorem handle_event_false (e : Event) : handle_event false e = false := by
  cases e <;> simp [handle_event]

/-- A stop event (quit, or Escape key-down) clears the running flag. -/
theorem handle_event_stop (r : Bool) (e : Event) (h : isStopEvent e = true) :
    handle_event r e = false := by
  cases e with
  | quit => simp [handle_event]
  | keyDown k =>
      simp only [isStopEvent, decide_eq_true_eq] at h
      simp [handle_event, h]
  | otherEvent => simp [isStopEvent] at h

/-- Once the running flag is false, draining any event queue leaves it false. -/
theorem handle_events_false (es : List Event) : handle_events false es = false := by
  induction es with
  | nil => rfl
  | cons e es ih =>
      simp only [handle_events, List.foldl_cons, handle_event_false]
      exact ih

/-- If the drained queue contains a stop event, `handle_events` ends with the
running flag cleared, whatever it started as. -/
theorem handle_events_stop (r : Bool) (es : List Event) (e : Event)
    (he : e ∈ es) (h : isStopEvent e = true) : handle_events r es = false := by
  induction es generalizing r with
  | nil => cases he
  | cons a es ih =>
      rcases List.mem_cons.mp he with rfl | hmem
      · simp only [handle_events, List.foldl_cons, handle_event_stop r e h]
        exact handle_events_false es
      · exact ih (handle_event r a) hmem

/-- With the running flag already cleared, the loop exits at once with 0. -/
theorem runLoop_stopped (renderTick : Bool → TickResult) (delayMs : ℕ)
    (inputs : List (List Event × Bool)) :
    runLoop renderTick delayMs false inputs = ([], RunOutcome.exited 0) := by
  cases inputs with
  | nil => rfl
  | cons p rest => cases p with | mk a b => rfl

/-! ## Claims C3, C4, C9 -/

/-- C3 counterexample: the tick the code performs draws the face and markers
before sampling the time, so its step list differs from the order the claim
states (sample time and compute angles first). -/
theorem C3_counterexample :
    render_clock_v2 true = TickResult.presented renderSteps ∧
      renderSteps ≠ specTickOrder := by
  exact ⟨rfl, by decide⟩

/-- C3 (amended): while `Running`, every tick of every variant performs, in
order — clear frame, draw face outline, draw hour markers, sample time,
compute angles, draw hour hand, draw minute hand, draw second hand, draw
center hub, present frame — and then the loop sleeps for the variant's fixed
interval (16 ms for v1, 100 ms for v2 and v3) before the next iteration. -/
theorem C3_theorem (events : List Event) (rest : List (List Event × Bool)) :
    (runLoop render_clock_v1 16 true ((events, true) :: rest)).1 =
      LoopStep.renderTick (TickResult.presented
        [Step.clearFrame, Step.drawFace, Step.drawMarkers, Step.sampleTime,
         Step.computeAngles, Step.drawHourHand, Step.drawMinuteHand,
         Step.drawSecondHand, Step.drawHub, Step.presentFrame]) ::
      LoopStep.sleepDelay 16 ::
        (runLoop render_clock_v1 16 (handle_events true events) rest).1 ∧
    (runLoop render_clock_v2 100 true ((events, true) :: rest)).1 =
      LoopStep.renderTick (TickResult.presented
        [Step.clearFrame, Step.drawFace, Step.drawMarkers, Step.sampleTime,
         Step.computeAngles, Step.drawHourHand, Step.drawMinuteHand,
         Step.drawSecondHand, Step.drawHub, Step.presentFrame]) ::
      LoopStep.sleepDelay 100 ::
        (runLoop render_clock_v2 100 (handle_events true events) rest).1 ∧
    (runLoop render_clock_v3 100 true ((events, true) :: rest)).1 =
      LoopStep.renderTick (TickResult.presented
        [Step.clearFrame, Step.drawFace, Step.drawMarkers, Step.sampleTime,
         Step.computeAngles, Step.drawHourHand, Step.drawMinuteHand,
         Step.drawSecondHand, Step.drawHub, Step.presentFrame]) ::
      LoopStep.sleepDelay 100 ::
        (runLoop render_clock_v3 100 (handle_events true events) rest).1 := by
  refine ⟨?_, ?_, ?_⟩ <;>
    simp [runLoop, render_clock_v1, render_clock_v2, render_clock_v3, renderSteps]

/-- C4 counterexample: in the basic 2D variant a failed `localtime` is
dereferenced unchecked inside `get_current_time`, so the tick crashes rather
than printing a diagnostic and exiting with non-zero status — refuting "in
every variant ... the program prints a diagnostic and exits with non-zero
status". -/
theorem C4_counterexample :
    render_clock_v1 false =
      TickResult.crash [Step.clearFrame, Step.drawFace, Step.drawMarkers] ∧
    isDiagnosticExit (render_clock_v1 false) = false := by
  exact ⟨rfl, rfl⟩

/-- C4 (amended): in the OpenGL variants (v2 and v3) a failed time read makes
the frame print `"Error: Unable to get current time"` and exit with status 1
before any hand is drawn and without reaching the present/swap step, and the
whole loop run ends with exit status 1; the basic 2D variant performs no
check on its time read and crashes instead of exiting with a diagnostic. -/
theorem C4_theorem (events : List Event) (rest : List (List Event × Bool)) :
    (render_clock_v2 false = TickResult.fatalExit
        [Step.clearFrame, Step.drawFace, Step.drawMarkers, Step.sampleTime]
        "Error: Unable to get current time" 1 ∧
      Step.presentFrame ∉
        [Step.clearFrame, Step.drawFace, Step.drawMarkers, Step.sampleTime]) ∧
    (render_clock_v3 false = TickResult.fatalExit
        [Step.clearFrame, Step.drawFace, Step.drawMarkers, Step.sampleTime]
        "Error: Unable to get current time" 1 ∧
      Step.presentFrame ∉
        [Step.clearFrame, Step.drawFace, Step.drawMarkers, Step.sampleTime]) ∧
    (runLoop render_clock_v2 100 true ((events, false) :: rest)).2 =
      RunOutcome.exited 1 ∧
    (runLoop render_clock_v3 100 true ((events, false) :: rest)).2 =
      RunOutcome.exited 1 := by
  refine ⟨⟨rfl, by decide⟩, ⟨rfl, by decide⟩, ?_, ?_⟩ <;>
    simp [runLoop, render_clock_v2, render_clock_v3]

/-- C9: a quit or Escape key-down event in the polled queue clears the running
flag during that same poll cycle, so the loop renders that one frame and then
exits with status 0; and every initialization failure yields the printed
diagnostic and process status 1 (non-zero), in both the basic and the 2D
OpenGL variant. -/
theorem C9_theorem (c : InitConds) (b : List Event)
    (rest : List (List Event × Bool)) (e : Event)
    (he : e ∈ b) (hstop : isStopEvent e = true) :
    (init_clock_v1 c = none →
      main_v1 c ((b, true) :: rest) =
        (none, [LoopStep.renderTick (TickResult.presented renderSteps),
                LoopStep.sleepDelay 16], RunOutcome.exited 0)) ∧
    (∀ d, init_clock_v1 c = some d →
      main_v1 c ((b, true) :: rest) = (some d, [], RunOutcome.exited 1)) ∧
    (init_clock_v2 c = none →
      main_v2 c ((b, true) :: rest) =
        (none, [LoopStep.renderTick (TickResult.presented renderSteps),
                LoopStep.sleepDelay 100], RunOutcome.exited 0)) ∧
    (∀ d, init_clock_v2 c = some d →
      main_v2 c ((b, true) :: rest) = (some d, [], RunOutcome.exited 1)) := by
  have hstopb : handle_events true b = false := handle_events_stop true b e he hstop
  refine ⟨?_, ?_, ?_, ?_⟩
  · intro hinit
    simp [main_v1, hinit, runLoop, render_clock_v1, hstopb, runLoop_stopped]
  · intro d hinit
    simp [main_v1, hinit]
  · intro hinit
    simp [main_v2, hinit, runLoop, render_clock_v2, hstopb, runLoop_stopped]
  · intro d hinit
    simp [main_v2, hinit]

/-- C9 witness: a single quit event in the first poll cycle, with all
initialization steps succeeding, makes the loop exit after that one frame
with status 0. -/
theorem C9_witness :
    (init_clock_v1 ⟨true, true, true⟩ = none →
      main_v1 ⟨true, true, true⟩ (([Event.quit], true) :: []) =
        (none, [LoopStep.renderTick (TickResult.presented renderSteps),
                LoopStep.sleepDelay 16], RunOutcome.exited 0)) ∧
    (∀ d, init_clock_v1 ⟨true, true, true⟩ = some d →
      main_v1 ⟨true, true, true⟩ (([Event.quit], true) :: []) =
        (some d, [], RunOutcome.exited 1)) ∧
    (init_clock_v2 ⟨true, true, true⟩ = none →
      main_v2 ⟨true, true, true⟩ (([Event.quit], true) :: []) =
        (none, [LoopStep.renderTick (TickResult.presented renderSteps),
                LoopStep.sleepDelay 100], RunOutcome.exited 0)) ∧
    (∀ d, init_clock_v2 ⟨true, true, true⟩ = some d →
      main_v2 ⟨true, true, true⟩ (([Event.quit], true) :: []) =
        (some d, [], RunOutcome.exited 1)) :=
  C9_theorem ⟨true, true, true⟩ [Event.quit] [] Event.quit (by decide) (by decide)

/-! ## Geometry generators

The trigonometric vertex generation is modelled over `ℝ`; the C `int`
parameters (centers, radii, lengths in the 2D variant) are modelled as the
types the claims quantify over (`ℕ` for radii, arbitrary reals where the C
code takes already-scaled values). C integer division on the radius
(`radius / 12`, `radius / 80`) is modelled as `ℕ` division exactly where the
source performs it on `int`s, and as real division where the source divides
by `80.0f` (part_001 line 278).
-/

noncomputable section

/-- 2D vertex (clock.c `Vertex`). -/
@[ext]
structure Vertex2 where
  x : ℝ
  y : ℝ

/-- 3D vertex with normal (part_001 `Vertex`). -/
@[ext]
structure Vertex3 where
  x : ℝ
  y : ℝ
  z : ℝ
  nx : ℝ
  ny : ℝ
  nz : ℝ

/-- Euclidean distance between two 2D vertices. -/
def planeDist (p q : Vertex2) : ℝ :=
  Real.sqrt ((p.x - q.x) ^ 2 + (p.y - q.y) ^ 2)

/-- Distance evaluator: if the squared displacement equals `a ^ 2` with
`0 ≤ a`, the distance is `a`. -/
theorem planeDist_eq_of_sq (p q : Vertex2) (a : ℝ) (ha : 0 ≤ a)
    (h : (p.x - q.x) ^ 2 + (p.y - q.y) ^ 2 = a ^ 2) : planeDist p q = a := by
  rw [planeDist, h, Real.sqrt_sq ha]

/-- Length of a `flatMap` whose pieces all have length `k`. -/
theorem length_flatMap_const {α β : Type} (l : List α) (f : α → List β) (k : ℕ)
    (hf : ∀ a, (f a).length = k) : (l.flatMap f).length = l.length * k := by
  induction l with
  | nil => simp
  | cons a t ih =>
      rw [List.flatMap_cons, List.length_append, hf, ih, List.length_cons]
      ring

/-- Point `i` of the parametric circle of `precompute_circle` (clock.c lines
96–106) and of the per-frame recompute (clock.c lines 232–237):
`(cx + radius*cos(i*2π/segments), cy + radius*sin(i*2π/segments))`. -/
def circlePoint (cx cy : ℝ) (radius segments i : ℕ) : Vertex2 :=
  ⟨cx + radius * Real.cos (i * 2 * Real.pi / segments),
   cy + radius * Real.sin (i * 2 * Real.pi / segments)⟩

/-- `precompute_circle` (clock.c lines 96–106): `segments + 1` points, the
loop running `for (i = 0; i <= segments; i++)`. -/
def precompute_circle (cx cy : ℝ) (radius segments : ℕ) : List Vertex2 :=
  (List.range (segments + 1)).map (circlePoint cx cy radius segments)

/-- Angle of hour marker `hour`: `hour * 30.0 * M_PI / 180.0` (clock.c
line 156, part_001 line 282). -/
def markerAngle (hour : ℕ) : ℝ := hour * 30 * Real.pi / 180

/-- The quantities `draw_hour_markers` computes per marker: the outer point,
the inner point, and the perpendicular thickness offset. -/
@[ext]
structure Marker where
  outer : Vertex2
  inner : Vertex2
  perpX : ℝ
  perpY : ℝ

/-- The per-marker data `draw_hour_markers` computes (clock.c lines 155–164):
outer point at `radius`, inner point at `radius - marker_length` with
`marker_length = radius / 12` (C integer division), and the perpendicular
half-thickness offset with `marker_thickness = radius / 80` (C integer
division). -/
def hourMarker (cx cy : ℝ) (radius hour : ℕ) : Marker :=
  { outer := ⟨cx + radius * Real.sin (markerAngle hour),
              cy - radius * Real.cos (markerAngle hour)⟩
    inner := ⟨cx + ((radius - radius / 12 : ℕ) : ℝ) * Real.sin (markerAngle hour),
              cy - ((radius - radius / 12 : ℕ) : ℝ) * Real.cos (markerAngle hour)⟩
    perpX := -Real.cos (markerAngle hour) * ((radius / 80 : ℕ) : ℝ) * (1 / 2)
    perpY := -Real.sin (markerAngle hour) * ((radius / 80 : ℕ) : ℝ) * (1 / 2) }

/-- The six quad vertices one marker contributes (clock.c lines 166–180):
two triangles between `inner ∓ perp` and `outer ∓ perp`. -/
def markerQuad (m : Marker) : List Vertex2 :=
  [⟨m.inner.x - m.perpX, m.inner.y - m.perpY⟩,
   ⟨m.inner.x + m.perpX, m.inner.y + m.perpY⟩,
   ⟨m.outer.x + m.perpX, m.outer.y + m.perpY⟩,
   ⟨m.inner.x - m.perpX, m.inner.y - m.perpY⟩,
   ⟨m.outer.x + m.perpX, m.outer.y + m.perpY⟩,
   ⟨m.outer.x - m.perpX, m.outer.y - m.perpY⟩]

/-- The 12 markers of `draw_hour_markers` (clock.c loop at line 155). -/
def hourMarkers (cx cy : ℝ) (radius : ℕ) : List Marker :=
  (List.range 12).map (hourMarker cx cy radius)

/-- The full vertex buffer `draw_hour_markers` fills (clock.c lines 152–181):
6 vertices per marker, 12 markers. -/
def draw_hour_markers_vertices (cx cy : ℝ) (radius : ℕ) : List Vertex2 :=
  (hourMarkers cx cy radius).flatMap markerQuad

/-- Outer point of marker `hour` in the 3D variant (part_001 lines 287–288):
`(-radius*sin a, radius*cos a)` around the origin. -/
def marker3Outer (radius hour : ℕ) : Vertex2 :=
  ⟨-(radius : ℝ) * Real.sin (markerAngle hour),
   (radius : ℝ) * Real.cos (markerAngle hour)⟩

/-- Inner point of marker `hour` in the 3D variant (part_001 lines 284,
289–290): radius `radius - marker_length` with `marker_length = radius / 12`
(C integer division). -/
def marker3Inner (radius hour : ℕ) : Vertex2 :=
  ⟨-((radius - radius / 12 : ℕ) : ℝ) * Real.sin (markerAngle hour),
   ((radius - radius / 12 : ℕ) : ℝ) * Real.cos (markerAngle hour)⟩

/-- 3D marker perpendicular x-offset (part_001 lines 278, 293): the thickness
is the real division `radius / 80.0f`. -/
def marker3PerpX (radius hour : ℕ) : ℝ :=
  -Real.cos (markerAngle hour) * ((radius : ℝ) / 80) * (1 / 2)

/-- 3D marker perpendicular y-offset (part_001 line 294). -/
def marker3PerpY (radius hour : ℕ) : ℝ :=
  -Real.sin (markerAngle hour) * ((radius : ℝ) / 80) * (1 / 2)

/-- The 12 vertices one marker contributes in the 3D variant (part_001 lines
296–318): 6 front-face vertices at `z = 3` with normal `(0,0,1)` and 6
back-face vertices at `z = -3` with normal `(0,0,-1)`. -/
def marker3Quad (radius hour : ℕ) : List Vertex3 :=
  let ox := (marker3Outer radius hour).x
  let oy := (marker3Outer radius hour).y
  let ix := (marker3Inner radius hour).x
  let iy := (marker3Inner radius hour).y
  let px := marker3PerpX radius hour
  let py := marker3PerpY radius hour
  [⟨ix - px, iy - py, 3, 0, 0, 1⟩, ⟨ix + px, iy + py, 3, 0, 0, 1⟩,
   ⟨ox + px, oy + py, 3, 0, 0, 1⟩, ⟨ix - px, iy - py, 3, 0, 0, 1⟩,
   ⟨ox + px, oy + py, 3, 0, 0, 1⟩, ⟨ox - px, oy - py, 3, 0, 0, 1⟩,
   ⟨ix + px, iy + py, -3, 0, 0, -1⟩, ⟨ix - px, iy - py, -3, 0, 0, -1⟩,
   ⟨ox - px, oy - py, -3, 0, 0, -1⟩, ⟨ix + px, iy + py, -3, 0, 0, -1⟩,
   ⟨ox - px, oy - py, -3, 0, 0, -1⟩, ⟨ox + px, oy + py, -3, 0, 0, -1⟩]

/-- `create_marker_vertices` (part_001 lines 276–322): the 12 markers' quads
concatenated in loop order. -/
def create_marker_vertices (radius : ℕ) : List Vertex3 :=
  (List.range 12).flatMap (marker3Quad radius)

/-- `draw_hand` quad construction (clock.c lines 117–138): endpoint at
`(cx + length*sin r, cy - length*cos r)`, perpendicular offset
`(-cos r, -sin r) * thickness * 0.5`, two triangles as six vertices. -/
def draw_hand_vertices (cx cy angle length thickness : ℝ) : List Vertex2 :=
  let radians := angle * Real.pi / 180
  let endX := cx + length * Real.sin radians
  let endY := cy - length * Real.cos radians
  let perpX := -Real.cos radians * thickness * (1 / 2)
  let perpY := -Real.sin radians * thickness * (1 / 2)
  [⟨cx - perpX, cy - perpY⟩, ⟨cx + perpX, cy + perpY⟩,
   ⟨endX + perpX, endY + perpY⟩, ⟨cx - perpX, cy - perpY⟩,
   ⟨endX + perpX, endY + perpY⟩, ⟨endX - perpX, endY - perpY⟩]

/-- `create_hand_vertices` (part_001 lines 233–268): endpoint at
`(-length*sin r, length*cos r)`, perpendicular offset
`(cos r, sin r) * thickness * 0.5`, six front-face vertices at `z = 2` and
six back-face vertices at `z = -2`. -/
def create_hand_vertices (angle length thickness : ℝ) : List Vertex3 :=
  let radians := angle * Real.pi / 180
  let endX := -length * Real.sin radians
  let endY := length * Real.cos radians
  let halfThick := thickness * (1 / 2)
  let perpX := Real.cos radians * halfThick
  let perpY := Real.sin radians * halfThick
  [⟨-perpX, -perpY, 2, 0, 0, 1⟩, ⟨perpX, perpY, 2, 0, 0, 1⟩,
   ⟨endX + perpX, endY + perpY, 2, 0, 0, 1⟩,
   ⟨-perpX, -perpY, 2, 0, 0, 1⟩, ⟨endX + perpX, endY + perpY, 2, 0, 0, 1⟩,
   ⟨endX - perpX, endY - perpY, 2, 0, 0, 1⟩,
   ⟨perpX, perpY, -2, 0, 0, -1⟩, ⟨-perpX, -perpY, -2, 0, 0, -1⟩,
   ⟨endX - perpX, endY - perpY, -2, 0, 0, -1⟩,
   ⟨perpX, perpY, -2, 0, 0, -1⟩, ⟨endX - perpX, endY - perpY, -2, 0, 0, -1⟩,
   ⟨endX + perpX, endY + perpY, -2, 0, 0, -1⟩]

/-- One segment's six triangle vertices of `create_circle_outline_3d`
(part_001 lines 189–213): outer and inner ring points at angles `i` and
`i+1`, inner radius `radius - 10`, normals fixed to `(0,0,1)`. -/
def circle3dSegment (radius : ℝ) (segments i : ℕ) : List Vertex3 :=
  let angle1 := i * 2 * Real.pi / segments
  let angle2 := (i + 1 : ℕ) * 2 * Real.pi / segments
  let x1 := radius * Real.cos angle1
  let y1 := radius * Real.sin angle1
  let x2 := radius * Real.cos angle2
  let y2 := radius * Real.sin angle2
  let innerRadius := radius - 10
  let ix1 := innerRadius * Real.cos angle1
  let iy1 := innerRadius * Real.sin angle1
  let ix2 := innerRadius * Real.cos angle2
  let iy2 := innerRadius * Real.sin angle2
  [⟨x1, y1, 0, 0, 0, 1⟩, ⟨x2, y2, 0, 0, 0, 1⟩, ⟨ix1, iy1, 0, 0, 0, 1⟩,
   ⟨ix1, iy1, 0, 0, 0, 1⟩, ⟨x2, y2, 0, 0, 0, 1⟩, ⟨ix2, iy2, 0, 0, 0, 1⟩]

/-- `create_circle_outline_3d` (part_001 lines 184–216): `segments` segments
of six vertices each, the reported `*vertex_count` being the list length. -/
def create_circle_outline_3d (radius : ℝ) (segments : ℕ) : List Vertex3 :=
  (List.range segments).flatMap (circle3dSegment radius segments)

/-- Capacity of clock.c's marker stack buffer `Vertex marker_vertices[12*6]`. -/
def markerBufferCapacity2d : ℕ := 12 * 6

/-- Capacity of clock.c's hand stack buffer `Vertex hand_vertices[6]`. -/
def handBufferCapacity2d : ℕ := 6

/-- Capacity of part_001's marker stack buffer `Vertex marker_vertices[12*12]`. -/
def markerBufferCapacity3d : ℕ := 12 * 12

/-- Capacity of part_001's hand allocation `malloc(100 * sizeof(Vertex))`. -/
def handAllocCapacity3d : ℕ := 100

/-- Capacity of part_001's face allocation `malloc(1000 * sizeof(Vertex))`. -/
def circleAllocCapacity3d : ℕ := 1000

/-- Capacity of part_001's hub stack buffer `Vertex center_vertices[120]`. -/
def hubBufferCapacity3d : ℕ := 120

/-- Distance of a parametric circle point from the circle's center. -/
theorem circlePoint_dist (cx cy : ℝ) (radius segments i : ℕ) :
    planeDist (circlePoint cx cy radius segments i) ⟨cx, cy⟩ = radius := by
  apply planeDist_eq_of_sq _ _ _ (Nat.cast_nonneg radius)
  dsimp only [circlePoint]
  linear_combination ((radius : ℝ)) ^ 2 *
    Real.sin_sq_add_cos_sq ((i : ℝ) * 2 * Real.pi / (segments : ℝ))

/-! ## Claims C6, C7, C8, C10 -/

/-- C6: `draw_hour_markers` generates exactly 12 markers spaced 30° apart;
every marker's outer point is at distance `radius` from the center, its inner
point at `radius - radius/12`, the marker's radial extent is `radius/12` and
its width across the perpendicular offset is `radius/80` (`/` being the C
integer division the source performs); the 3D variant's marker outer and
inner points satisfy the same two distances from the origin. -/
theorem C6_theorem (cx cy : ℝ) (radius : ℕ) :
    (hourMarkers cx cy radius).length = 12 ∧
    (∀ hour : ℕ, markerAngle (hour + 1) - markerAngle hour = 30 * Real.pi / 180) ∧
    (∀ hour : ℕ,
      planeDist (hourMarker cx cy radius hour).outer ⟨cx, cy⟩ = radius ∧
      planeDist (hourMarker cx cy radius hour).inner ⟨cx, cy⟩ =
        (radius : ℝ) - ((radius / 12 : ℕ) : ℝ) ∧
      planeDist (hourMarker cx cy radius hour).outer
          (hourMarker cx cy radius hour).inner = ((radius / 12 : ℕ) : ℝ) ∧
      planeDist
          ⟨(hourMarker cx cy radius hour).inner.x + (hourMarker cx cy radius hour).perpX,
           (hourMarker cx cy radius hour).inner.y + (hourMarker cx cy radius hour).perpY⟩
          ⟨(hourMarker cx cy radius hour).inner.x - (hourMarker cx cy radius hour).perpX,
           (hourMarker cx cy radius hour).inner.y - (hourMarker cx cy radius hour).perpY⟩ =
        ((radius / 80 : ℕ) : ℝ)) ∧
    (∀ hour : ℕ,
      planeDist (marker3Outer radius hour) ⟨0, 0⟩ = radius ∧
      planeDist (marker3Inner radius hour) ⟨0, 0⟩ =
        (radius : ℝ) - ((radius / 12 : ℕ) : ℝ)) := by
  have h12 : radius / 12 ≤ radius := Nat.div_le_self radius 12
  have hin : (0 : ℝ) ≤ (radius : ℝ) - ((radius / 12 : ℕ) : ℝ) :=
    sub_nonneg.mpr (Nat.cast_le.mpr h12)
  refine ⟨by simp [hourMarkers], ?_, ?_, ?_⟩
  · intro hour
    simp only [markerAngle]
    push_cast
    ring
  · intro hour
    have hs := Real.sin_sq_add_cos_sq (markerAngle hour)
    refine ⟨?_, ?_, ?_, ?_⟩
    · apply planeDist_eq_of_sq _ _ _ (Nat.cast_nonneg radius)
      dsimp only [hourMarker]
      linear_combination ((radius : ℝ)) ^ 2 * hs
    · apply planeDist_eq_of_sq _ _ _ hin
      dsimp only [hourMarker]
      rw [Nat.cast_sub h12]
      linear_combination ((radius : ℝ) - ((radius / 12 : ℕ) : ℝ)) ^ 2 * hs
    · apply planeDist_eq_of_sq _ _ _ (Nat.cast_nonneg _)
      dsimp only [hourMarker]
      rw [Nat.cast_sub h12]
      linear_combination (((radius / 12 : ℕ) : ℝ)) ^ 2 * hs
    · apply planeDist_eq_of_sq _ _ _ (Nat.cast_nonneg _)
      dsimp only [hourMarker]
      linear_combination (((radius / 80 : ℕ) : ℝ)) ^ 2 * hs
  · intro hour
    have hs := Real.sin_sq_add_cos_sq (markerAngle hour)
    refine ⟨?_, ?_⟩
    · apply planeDist_eq_of_sq _ _ _ (Nat.cast_nonneg radius)
      dsimp only [marker3Outer]
      linear_combination ((radius : ℝ)) ^ 2 * hs
    · apply planeDist_eq_of_sq _ _ _ hin
      dsimp only [marker3Inner]
      rw [Nat.cast_sub h12]
      linear_combination ((radius : ℝ) - ((radius / 12 : ℕ) : ℝ)) ^ 2 * hs

/-- C7: the circle generator at `segments = 720` yields exactly 721 points,
the last point coincides with the first (the parametric angle wraps from `2π`
back to `0`), and every generated point lies at distance `radius` from the
center — exactly, in the real-valued model. -/
theorem C7_theorem (cx cy : ℝ) (radius : ℕ) :
    (precompute_circle cx cy radius 720).length = 721 ∧
    circlePoint cx cy radius 720 720 = circlePoint cx cy radius 720 0 ∧
    ∀ p ∈ precompute_circle cx cy radius 720, planeDist p ⟨cx, cy⟩ = radius := by
  refine ⟨by simp [precompute_circle], ?_, ?_⟩
  · have e720 : (720 : ℝ) * 2 * Real.pi / 720 = 2 * Real.pi := by ring
    have e0 : (0 : ℝ) * 2 * Real.pi / 720 = 0 := by ring
    ext
    · simp [circlePoint, e720, e0, Real.cos_two_pi]
    · simp [circlePoint, e720, e0, Real.sin_two_pi]
  · intro p hp
    obtain ⟨i, _, rfl⟩ := List.mem_map.mp hp
    exact circlePoint_dist cx cy radius 720 i

/-- C8: with `thickness = 0` both hand generators produce their full quad
(6 vertices in the 2D generator, 12 in the 3D one) whose two long edges
coincide: the quad degenerates to the pattern `[c, c, e, c, e, e]` for a
single center point `c` and a single end point `e` (per face in 3D). -/
theorem C8_theorem (cx cy angle length : ℝ) :
    (draw_hand_vertices cx cy angle length 0).length = 6 ∧
    (∃ c e : Vertex2, draw_hand_vertices cx cy angle length 0 = [c, c, e, c, e, e]) ∧
    (create_hand_vertices angle length 0).length = 12 ∧
    (∃ c e cb eb : Vertex3, create_hand_vertices angle length 0 =
      [c, c, e, c, e, e, cb, cb, eb, cb, eb, eb]) := by
  refine ⟨rfl, ?_, rfl, ?_⟩
  · refine ⟨⟨cx, cy⟩,
      ⟨cx + length * Real.sin (angle * Real.pi / 180),
       cy - length * Real.cos (angle * Real.pi / 180)⟩, ?_⟩
    simp [draw_hand_vertices]
  · refine ⟨⟨0, 0, 2, 0, 0, 1⟩,
      ⟨-length * Real.sin (angle * Real.pi / 180),
       length * Real.cos (angle * Real.pi / 180), 2, 0, 0, 1⟩,
      ⟨0, 0, -2, 0, 0, -1⟩,
      ⟨-length * Real.sin (angle * Real.pi / 180),
       length * Real.cos (angle * Real.pi / 180), -2, 0, 0, -1⟩, ?_⟩
    simp [create_hand_vertices]

/-- C10: every geometry generator emits exactly the vertex count it reports
(the list length), and each count fits its destination buffer: 72 vertices in
the 72-slot 2D marker buffer, 6 in the 6-slot 2D hand buffer, 144 in the
144-slot 3D marker buffer, 12 in the 100-vertex hand allocation, and
`6 * segments` from the 3D circle generator — 360 in the 1000-vertex face
allocation at `segments = 60`, 120 in the 120-slot hub buffer at
`segments = 20`. -/
theorem C10_theorem (cx cy : ℝ) (radius : ℕ) (radius3 angle length thickness : ℝ)
    (segments : ℕ) :
    (draw_hour_markers_vertices cx cy radius).length = 72 ∧
    (draw_hour_markers_vertices cx cy radius).length ≤ markerBufferCapacity2d ∧
    (draw_hand_vertices cx cy angle length thickness).length = 6 ∧
    (draw_hand_vertices cx cy angle length thickness).length ≤ handBufferCapacity2d ∧
    (create_marker_vertices radius).length = 144 ∧
    (create_marker_vertices radius).length ≤ markerBufferCapacity3d ∧
    (create_hand_vertices angle length thickness).length = 12 ∧
    (create_hand_vertices angle length thickness).length ≤ handAllocCapacity3d ∧
    (create_circle_outline_3d radius3 segments).length = 6 * segments ∧
    (create_circle_outline_3d radius3 60).length = 360 ∧
    (create_circle_outline_3d radius3 60).length ≤ circleAllocCapacity3d ∧
    (create_circle_outline_3d radius3 20).length = 120 ∧
    (create_circle_outline_3d radius3 20).length ≤ hubBufferCapacity3d := by
  have hmark : (draw_hour_markers_vertices cx cy radius).length = 72 := by
    rw [draw_hour_markers_vertices,
      length_flatMap_const _ markerQuad 6 fun m => rfl]
    simp [hourMarkers]
  have hmark3 : (create_marker_vertices radius).length = 144 := by
    rw [create_marker_vertices,
      length_flatMap_const _ (marker3Quad radius) 12 fun i => rfl]
    simp
  have hcirc : ∀ s : ℕ, (create_circle_outline_3d radius3 s).length = 6 * s := by
    intro s
    rw [create_circle_outline_3d,
      length_flatMap_const _ (circle3dSegment radius3 s) 6 fun i => rfl]
    simp [Nat.mul_comm]
  have hhand2 : (draw_hand_vertices cx cy angle length thickness).length = 6 := rfl
  have hhand3 : (create_hand_vertices angle length thickness).length = 12 := rfl
  refine ⟨hmark, ?_, rfl, ?_, hmark3, ?_, rfl, ?_, hcirc segments, ?_, ?_, ?_, ?_⟩
  · rw [hmark]
    norm_num [markerBufferCapacity2d]
  · rw [hhand2]
    norm_num [handBufferCapacity2d]
  · rw [hmark3]
    norm_num [markerBufferCapacity3d]
  · rw [hhand3]
    norm_num [handAllocCapacity3d]
  · rw [hcirc 60]
  · rw [hcirc 60]
    norm_num [circleAllocCapacity3d]
  · rw [hcirc 20]
  · rw [hcirc 20]
    norm_num [hubBufferCapacity3d]

end

end ClockSpec
